import Mathlib

/-!
A verification development for the stock-alarm application (src/app.py).

The application watches a list of ticker symbols, computes a rolling RSI
from recent prices, evaluates an oversold / sharp-drop signal against
configurable thresholds, and sends a Telegram alert subject to a
per-instrument cooldown persisted in a JSON file, all gated on New York
market hours.  The definitions below are a shallow embedding of the
relevant functions of src/app.py: timestamps and prices are rational
numbers, the pandas NaN of an undefined indicator position is `Option`'s
`none`, the file-backed cooldown mapping is passed as an explicit value,
and the external collaborators (Telegram, yfinance, the wall clock) enter
as explicit arguments.
-/

namespace StockAlarm

/-! ### Cooldown store (src/app.py lines 52-106)

The durable store is a JSON file mapping ticker symbol to an ISO-8601
timestamp.  We model the mapping as a function from tickers to optional
timestamps (JSON object keys are unique), timestamps as rational seconds,
and the raw file as `Option (List (String × Option ℚ))`: the outer `none`
models an absent or unreadable file (or JSON that is not an object), and
an entry `(k, none)` models a timestamp string on which
`datetime.fromisoformat` raises. -/

def Store : Type := String → Option ℚ

def emptyStore : Store := fun _ => none

/-- `load_cooldown_data` (lines 52-61): the whole body is wrapped in
`try/except` returning `{}`; a missing file, an unreadable file, or one
malformed timestamp (the dict comprehension raising) all yield the empty
mapping with no error escaping. -/
def load_cooldown_data (file : Option (List (String × Option ℚ))) : Store :=
  match file with
  | none => emptyStore
  | some entries =>
      if entries.all (fun e => e.2.isSome) then
        fun k => (entries.lookup k).bind id
      else emptyStore

/-- `can_send_alert` (lines 74-84): true when no record exists for the
ticker, or when `(now - last).total_seconds() / 60` is at least
`cooldown_minutes`. -/
def can_send_alert (store : Store) (now : ℚ) (ticker : String)
    (cooldown_minutes : ℚ) : Bool :=
  match store ticker with
  | none => true
  | some last => decide (cooldown_minutes ≤ (now - last) / 60)

/-- `record_alert` (lines 87-91): upsert the ticker's timestamp to `now`
and save. -/
def record_alert (store : Store) (now : ℚ) (ticker : String) : Store :=
  fun k => if k = ticker then some now else store k

/-- `get_last_alert_time` (lines 94-97). -/
def get_last_alert_time (store : Store) (ticker : String) : Option ℚ :=
  store ticker

/-- `clear_old_cooldowns` (lines 100-106): keep exactly the records whose
age in seconds is strictly below `hours * 3600`; the rest are dropped. -/
def clear_old_cooldowns (store : Store) (now : ℚ) (hours : ℚ) : Store :=
  fun k =>
    match store k with
    | some v => if now - v < hours * 3600 then some v else none
    | none => none

/-- The sidebar reset button (lines 496-498) saves the empty dict,
whatever the store held. -/
def resetStore : Store := fun _ => none

/-! ### Indicator calculator: `calculate_rsi` (src/app.py lines 265-278)

`delta = prices.diff()` is NaN at position 0 and `p[i] - p[i-1]` after;
`delta.where(delta > 0, 0)` keeps a value only where the comparison is
True, and a NaN comparison is False, so position 0 of the gain and loss
series becomes `0`, not NaN.  The rolling means with
`min_periods = period` are therefore defined exactly from position
`period - 1` on (the windows contain no NaN).  `rs = avg_gain/avg_loss`
follows IEEE semantics: `g / 0 = ±∞` for `g ≠ 0`, making
`rsi = 100 - 100/(1 + rs)` exactly `100`, while `0 / 0 = NaN`
propagates — modelled by `rsiAt`'s case split; for a nonzero divisor the
arithmetic is exact in `ℚ`. -/

def gain (prices : List ℚ) (i : ℕ) : ℚ :=
  if i = 0 then 0 else max (prices.getD i 0 - prices.getD (i - 1) 0) 0

def loss (prices : List ℚ) (i : ℕ) : ℚ :=
  if i = 0 then 0 else max (prices.getD (i - 1) 0 - prices.getD i 0) 0

/-- Sum of `f` over the trailing window `i - n + 1 .. i`. -/
def windowSum (f : ℕ → ℚ) (i n : ℕ) : ℚ :=
  ((List.range n).map (fun j => f (i - j))).sum

/-- `gain.rolling(window=period, min_periods=period).mean()` at position
`i`: defined once the window holds `period` observations. -/
def avgGain (prices : List ℚ) (period i : ℕ) : Option ℚ :=
  if period ≤ i + 1 then some (windowSum (gain prices) i period / period)
  else none

def avgLoss (prices : List ℚ) (period i : ℕ) : Option ℚ :=
  if period ≤ i + 1 then some (windowSum (loss prices) i period / period)
  else none

/-- `100 - 100/(1 + g/l)` with the IEEE division-by-zero cases spelled
out (see the section comment). -/
def rsiAt (g l : ℚ) : Option ℚ :=
  if l = 0 then (if g = 0 then none else some 100)
  else some (100 - 100 / (1 + g / l))

def rsiIndex (prices : List ℚ) (period i : ℕ) : Option ℚ :=
  match avgGain prices period i, avgLoss prices period i with
  | some g, some l => rsiAt g l
  | _, _ => none

/-- `calculate_rsi`: one output position per input price, `none` for NaN. -/
def calculate_rsi (prices : List ℚ) (period : ℕ) : List (Option ℚ) :=
  (List.range prices.length).map (rsiIndex prices period)

/-! ### Market clock: `is_market_open` (src/app.py lines 281-297)

The code takes `datetime.now` in `America/New_York`, answers weekend when
`weekday() >= 5` (0 = Monday .. 6 = Sunday), and otherwise compares the
instant against the same instant with the time replaced by 09:30:00 and
16:00:00 — for a fixed date and tzinfo that is a comparison of
seconds-of-day.  We model the local instant by its weekday and its second
of the local day (rational, so fractional seconds are included); the
status strings of the triple the Python function returns become an
enumeration. -/

inductive MarketStatus where
  | OPEN
  | PRE_OPEN
  | CLOSED_AFTER_HOURS
  | WEEKEND
  deriving DecidableEq

def is_market_open (weekday : ℕ) (sod : ℚ) : Bool × MarketStatus :=
  if 5 ≤ weekday then (false, MarketStatus.WEEKEND)
  else if 34200 ≤ sod ∧ sod ≤ 57600 then (true, MarketStatus.OPEN)
  else if sod < 34200 then (false, MarketStatus.PRE_OPEN)
  else (false, MarketStatus.CLOSED_AFTER_HOURS)

/-! ### Signal evaluator and dispatch: `check_buy_signal` (lines 354-396)

The two threshold tests build the `signals` list (lines 356-362); the
formatted description strings are abstracted to their kind, `" / ".join`
becoming list append in the same order.  The Telegram send is an external
collaborator, so the success flag `send_telegram_message` would report
for this dispatch attempt is an explicit argument, and the file-backed
cooldown mapping is threaded as an explicit store value. -/

inductive SignalKind where
  | oversold
  | drop
  deriving DecidableEq

def evalSignals (rsi change_pct : Option ℚ)
    (rsi_threshold drop_threshold : ℚ) : List SignalKind :=
  (match rsi with
   | some r => if r ≤ rsi_threshold then [SignalKind.oversold] else []
   | none => []) ++
  (match change_pct with
   | some c => if c ≤ drop_threshold then [SignalKind.drop] else []
   | none => [])

structure CheckResult where
  store : Store
  has_signal : Bool
  alert_sent : Bool

/-- `check_buy_signal` as a transition on the cooldown store: when a
signal fired and the cooldown allows it, a send is attempted and
`record_alert` runs only when the send succeeded. -/
def check_buy_signal (store : Store) (ticker : String)
    (rsi change_pct : Option ℚ)
    (rsi_threshold drop_threshold cooldown_minutes now : ℚ)
    (send_ok : Bool) : CheckResult :=
  if (evalSignals rsi change_pct rsi_threshold drop_threshold).isEmpty then
    { store := store, has_signal := false, alert_sent := false }
  else if can_send_alert store now ticker cooldown_minutes then
    if send_ok then
      { store := record_alert store now ticker
        has_signal := true
        alert_sent := true }
    else
      { store := store, has_signal := true, alert_sent := false }
  else
    { store := store, has_signal := true, alert_sent := false }

/-! ### Monitor loop (src/app.py lines 653-696)

The start button's handler warns and refuses when the market is not open,
else warns and refuses when the Telegram credentials are missing, else
enters `while True`: each iteration re-reads `is_market_open` and breaks
when the market is no longer open, otherwise polls the watchlist once.
We model the successive clock readings (one per top of cycle) as a finite
trace of booleans and count the polling cycles executed. -/

inductive StartRefusal where
  | marketClosed
  | notConfigured
  deriving DecidableEq

def monitorStart (is_open configured : Bool) : Option StartRefusal :=
  if !is_open then some StartRefusal.marketClosed
  else if !configured then some StartRefusal.notConfigured
  else none

def runLoop : List Bool → ℕ
  | [] => 0
  | b :: rest => if b then runLoop rest + 1 else 0

/-! ### Concrete inputs used by witnesses and counterexamples -/

/-- Fourteen strictly rising prices: every delta is a gain. -/
def prices14 : List ℚ := [1, 2, 3, 4, 5, 6, 7, 8, 9, 10, 11, 12, 13, 14]

/-- Fourteen equal prices: a flat series, every gain and loss zero. -/
def ones14 : List ℚ := [1, 1, 1, 1, 1, 1, 1, 1, 1, 1, 1, 1, 1, 1]

/-- A store holding one record, for ticker "A" at time 0. -/
def storeA : Store := fun k => if k = "A" then some 0 else none



/-! ## Shared lemmas -/


theorem calculate_rsi_getD (prices : List ℚ) (period i : ℕ) :
    (calculate_rsi prices period).getD i none =
      if i < prices.length then rsiIndex prices period i else none := by
  unfold calculate_rsi
  rcases Nat.lt_or_ge i prices.length with h | h
  · rw [if_pos h, List.getD_eq_getElem?_getD, List.getElem?_map,
      List.getElem?_range h]
    rfl
  · rw [if_neg (Nat.not_lt.mpr h), List.getD_eq_getElem?_getD,
      List.getElem?_map, List.getElem?_eq_none (by simpa using h)]
    rfl

theorem gain_nonneg (prices : List ℚ) (i : ℕ) : 0 ≤ gain prices i := by
  unfold gain
  split
  · exact le_refl 0
  · exact le_max_right _ _

theorem loss_nonneg (prices : List ℚ) (i : ℕ) : 0 ≤ loss prices i := by
  unfold loss
  split
  · exact le_refl 0
  · exact le_max_right _ _

theorem avgGain_nonneg (prices : List ℚ) (period i : ℕ) (g : ℚ)
    (h : avgGain prices period i = some g) : 0 ≤ g := by
  unfold avgGain at h
  split at h
  · cases h
    refine div_nonneg (List.sum_nonneg ?_) (by positivity)
    intro x hx
    obtain ⟨j, _, rfl⟩ := List.mem_map.mp hx
    exact gain_nonneg prices _
  · cases h

theorem avgLoss_nonneg (prices : List ℚ) (period i : ℕ) (l : ℚ)
    (h : avgLoss prices period i = some l) : 0 ≤ l := by
  unfold avgLoss at h
  split at h
  · cases h
    refine div_nonneg (List.sum_nonneg ?_) (by positivity)
    intro x hx
    obtain ⟨j, _, rfl⟩ := List.mem_map.mp hx
    exact loss_nonneg prices _
  · cases h

theorem rsiAt_range (g l : ℚ) (hg : 0 ≤ g) (hl : 0 ≤ l) (r : ℚ)
    (h : rsiAt g l = some r) : 0 ≤ r ∧ r ≤ 100 := by
  unfold rsiAt at h
  split at h
  · split at h
    · cases h
    · cases h
      exact ⟨by norm_num, le_refl 100⟩
  · cases h
    rename_i hl0
    have hlpos : 0 < l := lt_of_le_of_ne hl (Ne.symm hl0)
    have hq : 0 ≤ g / l := div_nonneg hg hlpos.le
    have h1 : (0:ℚ) < 1 + g / l := by linarith
    have h2 : 100 / (1 + g / l) ≤ 100 := div_le_self (by norm_num) (by linarith)
    have h3 : 0 ≤ 100 / (1 + g / l) := div_nonneg (by norm_num) h1.le
    constructor <;> linarith



theorem list_range14 : List.range 14 = [0, 1, 2, 3, 4, 5, 6, 7, 8, 9, 10, 11, 12, 13] := rfl

theorem avgGain_prices14 : avgGain prices14 14 13 = some (13 / 14) := by
  rw [avgGain, if_pos (by norm_num), windowSum, list_range14]
  norm_num [gain, prices14]

theorem avgLoss_prices14 : avgLoss prices14 14 13 = some 0 := by
  rw [avgLoss, if_pos (by norm_num), windowSum, list_range14]
  norm_num [loss, prices14]

theorem avgGain_ones14 : avgGain ones14 14 13 = some 0 := by
  rw [avgGain, if_pos (by norm_num), windowSum, list_range14]
  norm_num [gain, ones14]

theorem avgLoss_ones14 : avgLoss ones14 14 13 = some 0 := by
  rw [avgLoss, if_pos (by norm_num), windowSum, list_range14]
  norm_num [loss, ones14]

theorem rsi_prices14_thirteen : (calculate_rsi prices14 14).getD 13 none = some 100 := by
  rw [calculate_rsi_getD, if_pos (by norm_num [prices14])]
  norm_num [rsiIndex, avgGain_prices14, avgLoss_prices14, rsiAt]

theorem runLoop_executed_open (clock : List Bool) :
    ∀ i, i < runLoop clock → clock.getD i false = true := by
  induction clock with
  | nil => intro i h; simp [runLoop] at h
  | cons b rest ih =>
    intro i h
    cases b with
    | false => simp [runLoop] at h
    | true =>
      cases i with
      | zero => rfl
      | succ j =>
        simp only [runLoop, if_true] at h
        simp only [List.getD_cons_succ]
        exact ih j (Nat.lt_of_succ_lt_succ h)

theorem runLoop_stops (clock : List Bool) :
    ∀ i, i < clock.length → clock.getD i false = false → runLoop clock ≤ i := by
  induction clock with
  | nil => intro i h _; simp at h
  | cons b rest ih =>
    intro i hlen hfalse
    cases b with
    | false => simp [runLoop]
    | true =>
      cases i with
      | zero => simp [List.getD] at hfalse
      | succ j =>
        simp only [runLoop, if_true]
        have := ih j (by simpa using Nat.lt_of_succ_lt_succ hlen) (by simpa using hfalse)
        omega

/-- C1: when the notifier reports failure, `check_buy_signal` leaves the
cooldown store unchanged, reports the alert as not sent, and the
instrument's `can_send_alert` answer at any later time and duration is
what it was before the attempt. -/
theorem c1_failed_send_leaves_cooldown (store : Store) (ticker : String)
    (rsi change_pct : Option ℚ) (rt dt cd now : ℚ) :
    (check_buy_signal store ticker rsi change_pct rt dt cd now false).store = store
    ∧ (check_buy_signal store ticker rsi change_pct rt dt cd now false).alert_sent = false
    ∧ (∀ t d, can_send_alert
        (check_buy_signal store ticker rsi change_pct rt dt cd now false).store t ticker d
        = can_send_alert store t ticker d) := by
  unfold check_buy_signal
  by_cases h1 : (evalSignals rsi change_pct rt dt).isEmpty <;>
    by_cases h2 : can_send_alert store now ticker cd <;>
      simp [h1, h2]

/-- C2: `can_send_alert` is true exactly when no record exists or at least
the cooldown duration has elapsed; right after `record_alert` it is false,
and once the duration has elapsed it is true again. -/
theorem c2_cooldown_roundtrip (store : Store) (ticker : String) (d now : ℚ)
    (hd : 0 < d) :
    (can_send_alert store now ticker d = true ↔
      store ticker = none ∨ ∃ last, store ticker = some last ∧ d ≤ (now - last) / 60)
    ∧ can_send_alert (record_alert store now ticker) now ticker d = false
    ∧ (∀ t, now + 60 * d ≤ t →
        can_send_alert (record_alert store now ticker) t ticker d = true) := by
  refine ⟨?_, ?_, ?_⟩
  · unfold can_send_alert
    cases h : store ticker with
    | none => simp
    | some last => simp [h]
  · simpa [can_send_alert, record_alert, sub_self, zero_div] using hd
  · intro t ht
    have : d ≤ (t - now) / 60 := by
      rw [le_div_iff₀ (by norm_num : (0:ℚ) < 60)]
      linarith
    simp [can_send_alert, record_alert, this]

/-- C2 witness: with a 30-minute cooldown, an alert recorded at time 0 may
not repeat at time 0. -/
theorem c2_cooldown_roundtrip_witness :
    can_send_alert (record_alert emptyStore 0 "NVDA") 0 "NVDA" 30 = false :=
  (c2_cooldown_roundtrip emptyStore "NVDA" 30 0 (by norm_num)).2.1

theorem oversold_mem (rsi change_pct : Option ℚ) (rt dt : ℚ) :
    SignalKind.oversold ∈ evalSignals rsi change_pct rt dt ↔
      ∃ r, rsi = some r ∧ r ≤ rt := by
  rcases rsi with _ | r <;> rcases change_pct with _ | c
  · simp [evalSignals]
  · by_cases hc : c ≤ dt <;> simp [evalSignals, hc]
  · by_cases hr : r ≤ rt <;> simp [evalSignals, hr]
  · by_cases hr : r ≤ rt <;> by_cases hc : c ≤ dt <;> simp [evalSignals, hr, hc]

theorem drop_mem (rsi change_pct : Option ℚ) (rt dt : ℚ) :
    SignalKind.drop ∈ evalSignals rsi change_pct rt dt ↔
      ∃ c, change_pct = some c ∧ c ≤ dt := by
  rcases rsi with _ | r <;> rcases change_pct with _ | c
  · simp [evalSignals]
  · by_cases hc : c ≤ dt <;> simp [evalSignals, hc]
  · by_cases hr : r ≤ rt <;> simp [evalSignals, hr]
  · by_cases hr : r ≤ rt <;> by_cases hc : c ≤ dt <;> simp [evalSignals, hr, hc]

theorem fires_iff (rsi change_pct : Option ℚ) (rt dt : ℚ) :
    (evalSignals rsi change_pct rt dt).isEmpty = false ↔
      SignalKind.oversold ∈ evalSignals rsi change_pct rt dt ∨
        SignalKind.drop ∈ evalSignals rsi change_pct rt dt := by
  rcases rsi with _ | r <;> rcases change_pct with _ | c
  · simp [evalSignals]
  · by_cases hc : c ≤ dt <;> simp [evalSignals, hc]
  · by_cases hr : r ≤ rt <;> simp [evalSignals, hr]
  · by_cases hr : r ≤ rt <;> by_cases hc : c ≤ dt <;> simp [evalSignals, hr, hc]

/-- C3: oversold fires exactly when the RSI is defined and at most the RSI
threshold, drop exactly when the change percentage is defined and at most
the drop threshold; the signal list is nonempty exactly when one of the
two fired, both kinds are listed when both fire, and the spec's two
concrete scenarios (RSI 25 and change -10 percent fires both; RSI 35 and
change -2 percent under the default thresholds fires nothing) come out as
stated. -/
theorem c3_signal_conditions (rsi change_pct : Option ℚ) (rt dt : ℚ) :
    (SignalKind.oversold ∈ evalSignals rsi change_pct rt dt ↔
      ∃ r, rsi = some r ∧ r ≤ rt)
    ∧ (SignalKind.drop ∈ evalSignals rsi change_pct rt dt ↔
      ∃ c, change_pct = some c ∧ c ≤ dt)
    ∧ ((evalSignals rsi change_pct rt dt).isEmpty = false ↔
      SignalKind.oversold ∈ evalSignals rsi change_pct rt dt ∨
        SignalKind.drop ∈ evalSignals rsi change_pct rt dt)
    ∧ (∀ r c, rsi = some r → r ≤ rt → change_pct = some c → c ≤ dt →
      evalSignals rsi change_pct rt dt = [SignalKind.oversold, SignalKind.drop])
    ∧ evalSignals (some 25) (some (-10)) 30 (-5) = [SignalKind.oversold, SignalKind.drop]
    ∧ evalSignals (some 35) (some (-2)) 30 (-5) = [] := by
  refine ⟨oversold_mem rsi change_pct rt dt, drop_mem rsi change_pct rt dt,
    fires_iff rsi change_pct rt dt, ?_, ?_, ?_⟩
  · intro r c hr hrt hc hct
    subst hr; subst hc
    simp [evalSignals, hrt, hct]
  · norm_num [evalSignals]
  · norm_num [evalSignals]

/-- C4 counterexample: the 14-price rising series has length below N+1 = 15,
yet the calculator produces the defined value 100 at position 13, because
the NaN at position 0 of `prices.diff()` is coerced by `where` to a zero
gain and a zero loss and counts toward `min_periods`. -/
theorem c4_counterexample :
    prices14.length < 14 + 1
    ∧ (calculate_rsi prices14 14).getD 13 none = some 100 :=
  ⟨by norm_num [prices14], rsi_prices14_thirteen⟩

/-- C4 (amended): for every price series of length below N = 14, every
position of the calculator's output is undefined; a defined value can
first appear at position N - 1, with N prices. -/
theorem c4_short_series_all_undefined (prices : List ℚ) (i : ℕ)
    (h : prices.length < 14) :
    (calculate_rsi prices 14).getD i none = none := by
  rw [calculate_rsi_getD]
  split
  · rename_i hi
    have hwin : ¬ (14 ≤ i + 1) := by omega
    simp [rsiIndex, avgGain, avgLoss, hwin]
  · rfl

/-- C4 witness: a three-price series yields no defined RSI anywhere. -/
theorem c4_short_series_all_undefined_witness :
    (calculate_rsi [(1:ℚ), 2, 3] 14).getD 1 none = none :=
  c4_short_series_all_undefined [(1:ℚ), 2, 3] 1 (by norm_num)

/-- C5: at a position where both trailing averages are defined, a zero
average loss with positive average gain yields exactly 100 (never NaN),
and zero average gain with zero average loss yields an undefined value,
never a numeric default. -/
theorem c5_rsi_edge_cases (prices : List ℚ) (period i : ℕ) (g l : ℚ)
    (hi : i < prices.length)
    (hg : avgGain prices period i = some g)
    (hl : avgLoss prices period i = some l) :
    (l = 0 → 0 < g → (calculate_rsi prices period).getD i none = some 100)
    ∧ (g = 0 → l = 0 → (calculate_rsi prices period).getD i none = none) := by
  constructor
  · intro h0 hgpos
    rw [calculate_rsi_getD, if_pos hi]
    simp [rsiIndex, hg, hl, rsiAt, h0, hgpos.ne']
  · intro hg0 hl0
    rw [calculate_rsi_getD, if_pos hi]
    simp [rsiIndex, hg, hl, rsiAt, hg0, hl0]

/-- C5 witness: the rising series hits the avgLoss = 0 < avgGain case and
reports 100; the flat series hits the 0/0 case and reports undefined. -/
theorem c5_rsi_edge_cases_witness :
    (calculate_rsi prices14 14).getD 13 none = some 100
    ∧ (calculate_rsi ones14 14).getD 13 none = none :=
  ⟨(c5_rsi_edge_cases prices14 14 13 (13/14) 0 (by norm_num [prices14])
      avgGain_prices14 avgLoss_prices14).1 rfl (by norm_num),
   (c5_rsi_edge_cases ones14 14 13 0 0 (by norm_num [ones14])
      avgGain_ones14 avgLoss_ones14).2 rfl rfl⟩

/-- C6: on Saturday or Sunday the clock reports WEEKEND whatever the time;
on a weekday the status is OPEN exactly for seconds-of-day in
[34200, 57600] (09:30:00 through 16:00:00, both endpoints open, so
16:00:01 = 57601 is closed), PRE_OPEN before the window and
CLOSED_AFTER_HOURS after it, and the boolean of the returned pair agrees
with the OPEN status. -/
theorem c6_market_clock (wd : ℕ) (sod : ℚ) :
    (5 ≤ wd → is_market_open wd sod = (false, MarketStatus.WEEKEND))
    ∧ (wd < 5 → ((is_market_open wd sod).2 = MarketStatus.OPEN ↔
        34200 ≤ sod ∧ sod ≤ 57600))
    ∧ (wd < 5 → sod < 34200 →
        is_market_open wd sod = (false, MarketStatus.PRE_OPEN))
    ∧ (wd < 5 → 57600 < sod →
        is_market_open wd sod = (false, MarketStatus.CLOSED_AFTER_HOURS))
    ∧ ((is_market_open wd sod).1 = true ↔
        (is_market_open wd sod).2 = MarketStatus.OPEN) := by
  by_cases h5 : 5 ≤ wd
  · have hlt : ¬ wd < 5 := Nat.not_lt.mpr h5
    simp [is_market_open, h5, hlt]
  · have hlt : wd < 5 := Nat.not_le.mp h5
    by_cases hin : 34200 ≤ sod ∧ sod ≤ 57600
    · refine ⟨fun h => absurd h h5, fun _ => by simp [is_market_open, h5, hin], ?_, ?_, ?_⟩
      · intro _ hpre
        exact absurd hin.1 (not_le.mpr hpre)
      · intro _ hpost
        exact absurd hin.2 (not_le.mpr hpost)
      · simp [is_market_open, h5, hin]
    · by_cases hpre : sod < 34200
      · refine ⟨fun h => absurd h h5, fun _ => by simp [is_market_open, h5, hin, hpre], ?_, ?_, ?_⟩
        · intro _ _
          simp [is_market_open, h5, hin, hpre]
        · intro _ hpost
          linarith
        · simp [is_market_open, h5, hin, hpre]
      · refine ⟨fun h => absurd h h5, fun _ => by simp [is_market_open, h5, hin, hpre], ?_, ?_, ?_⟩
        · intro _ h2
          exact absurd h2 hpre
        · intro _ _
          simp [is_market_open, h5, hin, hpre]
        · simp [is_market_open, h5, hin, hpre]

/-- C7 counterexample: a record aged exactly 24 hours (86400 seconds) is
not older than 24 hours, yet `clear_old_cooldowns` with the 24-hour
retention removes it (the code keeps only ages strictly below the
retention). -/
theorem c7_counterexample :
    clear_old_cooldowns storeA 86400 24 "A" = none
    ∧ ¬ ((86400:ℚ) - 0 > 24 * 3600) := by
  constructor
  · have hA : storeA "A" = some 0 := rfl
    norm_num [clear_old_cooldowns, hA]
  · norm_num

/-- C7 (amended): prune with the 24-hour retention removes exactly the
records aged at least 24 hours — a record aged exactly 24 hours is
removed — leaves every strictly newer record's entry unchanged and absent
entries absent, and reset empties the store unconditionally. -/
theorem c7_prune_and_reset (store : Store) (now : ℚ) (k : String) (v : ℚ)
    (hk : store k = some v) :
    (86400 ≤ now - v → clear_old_cooldowns store now 24 k = none)
    ∧ (now - v < 86400 → clear_old_cooldowns store now 24 k = some v)
    ∧ (∀ k2, store k2 = none → clear_old_cooldowns store now 24 k2 = none)
    ∧ (∀ k2, resetStore k2 = none) := by
  have hret : (24:ℚ) * 3600 = 86400 := by norm_num
  refine ⟨?_, ?_, ?_, fun k2 => rfl⟩
  · intro h
    have hcut : ¬ (now - v < 24 * 3600) := by
      rw [hret]
      exact not_lt.mpr h
    simp [clear_old_cooldowns, hk, hcut]
  · intro h
    have hcut : now - v < 24 * 3600 := by
      rw [hret]
      exact h
    simp [clear_old_cooldowns, hk, hcut]
  · intro k2 h2
    simp [clear_old_cooldowns, h2]

/-- C7 witness: a record 100 seconds old survives the 24-hour prune
unchanged. -/
theorem c7_prune_and_reset_witness :
    clear_old_cooldowns storeA 100 24 "A" = some 0 :=
  (c7_prune_and_reset storeA 100 "A" 0 rfl).2.1 (by norm_num)

/-- C8: the monitor starts exactly when the market is open and the
channel is configured, reporting the applicable refusal otherwise
(market state checked first); and over any trace of top-of-cycle clock
readings, every executed polling cycle saw an open market, and no cycle
runs at or after the first closed reading. -/
theorem c8_monitor_loop (is_open configured : Bool) (clock : List Bool) :
    (monitorStart is_open configured = none ↔
      is_open = true ∧ configured = true)
    ∧ (is_open = false →
        monitorStart is_open configured = some StartRefusal.marketClosed)
    ∧ (is_open = true → configured = false →
        monitorStart is_open configured = some StartRefusal.notConfigured)
    ∧ (∀ i, i < runLoop clock → clock.getD i false = true)
    ∧ (∀ i, i < clock.length → clock.getD i false = false →
        runLoop clock ≤ i) := by
  refine ⟨?_, ?_, ?_, runLoop_executed_open clock, runLoop_stops clock⟩
  · cases is_open <;> cases configured <;> simp [monitorStart]
  · intro h
    subst h
    simp [monitorStart]
  · intro h1 h2
    subst h1
    subst h2
    simp [monitorStart]

/-- C9: every defined value the calculator produces lies in [0, 100];
positions without a defined value carry `none` (the NaN of the Python
series), not a number. -/
theorem c9_rsi_in_range (prices : List ℚ) (period i : ℕ) (r : ℚ)
    (h : (calculate_rsi prices period).getD i none = some r) :
    0 ≤ r ∧ r ≤ 100 := by
  rw [calculate_rsi_getD] at h
  split at h
  · unfold rsiIndex at h
    cases hg : avgGain prices period i with
    | none => rw [hg] at h; cases h
    | some g =>
      cases hl : avgLoss prices period i with
      | none => rw [hg, hl] at h; cases h
      | some l =>
        rw [hg, hl] at h
        exact rsiAt_range g l (avgGain_nonneg prices period i g hg)
          (avgLoss_nonneg prices period i l hl) r h
  · cases h

/-- C9 witness: the rising series' value 100 is inside [0, 100]. -/
theorem c9_rsi_in_range_witness : (0:ℚ) ≤ 100 ∧ (100:ℚ) ≤ 100 :=
  c9_rsi_in_range prices14 14 13 100 rsi_prices14_thirteen

/-- C10: an absent or unreadable cooldown file, or one with a malformed
timestamp, loads as the empty mapping with no error; every instrument may
then alert and has no last-alert time — unreadable storage fails open. -/
theorem c10_unreadable_fails_open (file : Option (List (String × Option ℚ)))
    (hbad : file = none ∨ ∃ entries, file = some entries ∧
        entries.all (fun e => e.2.isSome) = false) :
    load_cooldown_data file = emptyStore
    ∧ (∀ ticker now d, can_send_alert (load_cooldown_data file) now ticker d = true)
    ∧ (∀ ticker, get_last_alert_time (load_cooldown_data file) ticker = none) := by
  have hempty : load_cooldown_data file = emptyStore := by
    rcases hbad with rfl | ⟨entries, rfl, hall⟩
    · rfl
    · simp [load_cooldown_data, hall]
  rw [hempty]
  exact ⟨rfl, fun _ _ _ => rfl, fun _ => rfl⟩

/-- C10 witness: a file whose one timestamp fails to parse loads as the
empty mapping, and "NVDA" may alert at once. -/
theorem c10_unreadable_fails_open_witness :
    load_cooldown_data (some [("A", (none : Option ℚ))]) = emptyStore
    ∧ can_send_alert (load_cooldown_data (some [("A", (none : Option ℚ))])) 0 "NVDA" 30 = true := by
  have h := c10_unreadable_fails_open (some [("A", (none : Option ℚ))])
    (Or.inr ⟨[("A", (none : Option ℚ))], rfl, rfl⟩)
  exact ⟨h.1, h.2.1 "NVDA" 0 30⟩

end StockAlarm
